import Mathlib

/-!
# Verification of the `otelmiddleware` HTTP tracing middleware

Shallow embedding of `src/otelmiddleware/tracing.go` (package `otelmiddleware`).
The middleware wraps an `http.Handler`: it extracts inbound trace context with
the configured propagator, builds semantic-convention span attributes, derives
a span name from the request URI, starts a server span, injects trace context
back into the headers with the process-wide global propagator, runs the
downstream handler with a status-capturing response writer, records the
response status if the span is recording, and ends the span via `defer`.

External collaborators (the OpenTelemetry tracer, propagators and the
`semconv` attribute helpers) are modelled abstractly; observable interactions
with them are recorded as an event trace so that claims about *which*
collaborator is invoked, and in *which order*, can be stated and proved.
-/

namespace Otelmiddleware

/-- `attribute.KeyValue` from `go.opentelemetry.io/otel/attribute`,
modelled as a string key paired with a string-rendered value. -/
structure KeyValue where
  key : String
  value : String
deriving DecidableEq, Repr

/-- Opaque identity of a `context.Context` value. -/
abbrev Ctx := Nat

/-- A header map (`http.Header`), modelled as an association list. -/
abbrev Headers := List (String × String)

/-- `propagation.TextMapPropagator`: an identity (`pid`) used to observe which
propagator instance a call site uses, together with its `Extract` and `Inject`
behaviour on a context and a header carrier. -/
structure Propagator where
  pid : Nat
  extractFn : Ctx → Headers → Ctx
  injectFn : Ctx → Headers → Headers

/-- `trace.Tracer`, identified by its instrumentation name and version
(the arguments of `otel.Tracer(name, trace.WithInstrumentationVersion(v))`). -/
structure Tracer where
  instrumentationName : String
  instrumentationVersion : String
deriving DecidableEq, Repr

/-- `const version = "0.1.0"` — the instrumentation version (tracing.go:28). -/
def version : String := "0.1.0"

/-- `traceConfig`: the configuration struct of the library (tracing.go:35-40).
Go zero values: `serviceName` is `""`, `tracer` and `propagator` are `nil`
(modelled as `none`), `attributes` is the empty slice. -/
structure traceConfig where
  serviceName : String := ""
  tracer : Option Tracer := none
  propagator : Option Propagator := none
  attributes : List KeyValue := []

/-- `TraceOption`: a function mutating a `traceConfig` (tracing.go:32),
modelled functionally as a config transformer. -/
abbrev TraceOption := traceConfig → traceConfig

/-- `WithTracer` (tracing.go:132-136). -/
def WithTracer (tracer : Tracer) : TraceOption :=
  fun c => { c with tracer := some tracer }

/-- `WithPropagator` (tracing.go:139-143). -/
def WithPropagator (p : Propagator) : TraceOption :=
  fun c => { c with propagator := some p }

/-- `WithServiceName` (tracing.go:146-150). -/
def WithServiceName (serviceName : String) : TraceOption :=
  fun c => { c with serviceName := serviceName }

/-- `WithAttributes` (tracing.go:154-158): the field is assigned, not
appended to. -/
def WithAttributes (attributes : List KeyValue) : TraceOption :=
  fun c => { c with attributes := attributes }

/-- The option-application loop of `TraceWithOptions` (tracing.go:45-50):
start from the zero `traceConfig` and apply each option in call order. -/
def applyOptions (opt : List TraceOption) : traceConfig :=
  opt.foldl (fun c o => o c) {}

/-- The default tracer `otel.Tracer("github.com/vincentfree/opentelemetry/otelmiddleware",
trace.WithInstrumentationVersion(version))` (tracing.go:53). -/
def defaultTracer : Tracer :=
  { instrumentationName := "github.com/vincentfree/opentelemetry/otelmiddleware"
    instrumentationVersion := version }

/-- A `traceConfig` after the nil-checks of `TraceWithOptions` have run:
every field is definitely present. -/
structure resolvedTraceConfig where
  serviceName : String
  tracer : Tracer
  propagator : Propagator
  attributes : List KeyValue

/-- The default-filling checks of `TraceWithOptions` (tracing.go:51-62),
run at wrap time after all options were applied: a `nil` tracer becomes the
default library tracer, a `nil` propagator becomes the process-wide global
propagator (`otel.GetTextMapPropagator()`), an empty service name becomes
`"TracedApplication"`. Each Go check `if field == nil { field = default }`
is rendered as `Option.getD`. -/
def resolveConfig (globalPropagator : Propagator) (opt : List TraceOption) : resolvedTraceConfig :=
  let config := applyOptions opt
  { serviceName := if config.serviceName = "" then "TracedApplication" else config.serviceName
    tracer := config.tracer.getD defaultTracer
    propagator := config.propagator.getD globalPropagator
    attributes := config.attributes }

/-- `*http.Request`: the fields that tracing.go reads. -/
structure Request where
  ctx : Ctx
  header : Headers
  host : String
  requestURI : String
  proto : String
  method : String
  protoMajor : Nat
deriving Repr

/-- `extractRoute(uri)` returns `uri[1:]` (tracing.go:127-129). In Go the
slice expression `uri[1:]` panics with a slice-bounds error when
`len(uri) = 0`; partiality is modelled with `Option`. -/
def extractRoute (uri : String) : Option String :=
  if 1 ≤ uri.length then some (uri.drop 1) else none

/-- Modelled from the spec: `semconv.NetAttributesFromHTTPRequest` of the
external collaborator library, producing "standard network attributes (peer
protocol)" derived from the inbound request (§4.2 step 2). -/
def NetAttributesFromHTTPRequest (transport : String) (_r : Request) : List KeyValue :=
  [{ key := "net.transport", value := transport }]

/-- Modelled from the spec: `semconv.EndUserAttributesFromHTTPRequest` of the
external collaborator library, producing "end-user attributes if present"
derived from the inbound request (§4.2 step 2). -/
def EndUserAttributesFromHTTPRequest (_r : Request) : List KeyValue := []

/-- Modelled from the spec: `semconv.HTTPServerAttributesFromHTTPRequest` of
the external collaborator library, producing "HTTP server attributes (host,
route, method)" (§4.2 step 2); the route attribute carries the `route`
argument verbatim when it is non-empty. -/
def HTTPServerAttributesFromHTTPRequest (serverName route : String) (r : Request) : List KeyValue :=
  [{ key := "http.method", value := r.method },
   { key := "http.server_name", value := serverName }]
  ++ (if route = "" then [] else [{ key := "http.route", value := route }])

/-- Modelled from the spec: `semconv.HTTPClientAttributesFromHTTPRequest` of
the external collaborator library, producing "client attributes" derived from
the inbound request (§4.2 step 2). -/
def HTTPClientAttributesFromHTTPRequest (_r : Request) : List KeyValue := []

/-- Modelled from the spec: `semconv.TelemetrySDKLanguageGo`, the "fixed
language/runtime tag" (§4.2 step 2). -/
def TelemetrySDKLanguageGo : KeyValue :=
  { key := "telemetry.sdk.language", value := "go" }

/-- Modelled from the spec: `semconv.HTTPAttributesFromHTTPStatusCode` of the
external collaborator library, "an attribute encoding the numeric response
status code" (§4.2 step 10). -/
def HTTPAttributesFromHTTPStatusCode (code : Nat) : List KeyValue :=
  [{ key := "http.status_code", value := toString code }]

/-- Modelled from the spec: the Response Status Capturer (§4.1), a decorator
over the response writer holding "a captured status integer (0/unset until
first write)". Only its captured status is relevant to the middleware. -/
structure WrapResponseWriter where
  status : Nat := 0
deriving DecidableEq, Repr

/-- Modelled from the spec: constructing the capturer for a request
(`NewWrapResponseWriter(w, r.ProtoMajor)`), with status initially unset. -/
def NewWrapResponseWriter (_protoMajor : Nat) : WrapResponseWriter := {}

/-- Modelled from the spec: the capturer's "accessor for captured status"
(§4.1). -/
def WrapResponseWriter.Status (w : WrapResponseWriter) : Nat := w.status

/-- The Go panic value of an out-of-bounds string slice. -/
def sliceBoundsPanic : String := "runtime error: slice bounds out of range"

/-- A downstream `http.Handler`: given the (rewritten) request and the wrapped
response writer it either returns normally with the final writer state or
panics with a panic value (`Except.error`). -/
abbrev NextHandler := Request → WrapResponseWriter → Except String WrapResponseWriter

/-- Observable interactions of one middleware invocation with the tracing
collaborators, in call order. -/
inductive Event
  | extractUsing (pid : Nat)
  | spanStarted (tracer : Tracer) (name : String) (attrs : List KeyValue)
  | injectUsing (pid : Nat)
  | spanSetAttributes (attrs : List KeyValue)
  | spanEnded
deriving DecidableEq, Repr

/-- Result of running the wrapped handler on one request: normal return or a
propagated panic, the collaborator event trace, and the final header map of
the request (headers are mutated in place by injection). -/
structure HandlerResult where
  outcome : Except String Unit
  events : List Event
  finalHeader : Headers
deriving Repr

/-- Behaviour of the external tracing environment: the process-wide global
propagator (`otel.GetTextMapPropagator()`), the context transformation
performed by `tracer.Start` (returning "an updated context carrying this new
span"), and whether the started span reports `IsRecording()`. -/
structure Env where
  globalPropagator : Propagator
  startCtx : Ctx → Ctx
  spanRecording : Bool

/-- The request the downstream handler receives (tracing.go:101-103): its
context is the span-bearing context and its headers have had the current
trace context injected by the process-wide global propagator. -/
def downstreamRequest (propagator : Propagator) (env : Env) (r : Request) : Request :=
  let ctx := propagator.extractFn r.ctx r.header
  let spanCtx := env.startCtx ctx
  { r with ctx := spanCtx, header := env.globalPropagator.injectFn spanCtx r.header }

/-- The standard span-start attributes built at tracing.go:72-85 (span kind
aside): semantic-convention network, end-user, HTTP-server, HTTP-client and
language attributes, with `route` the value of `extractRoute(r.RequestURI)`. -/
def standardSpanAttributes (r : Request) (route : String) : List KeyValue :=
  NetAttributesFromHTTPRequest "tcp" r
    ++ EndUserAttributesFromHTTPRequest r
    ++ HTTPServerAttributesFromHTTPRequest r.host route r
    ++ HTTPClientAttributesFromHTTPRequest r
    ++ [TelemetrySDKLanguageGo]

/-- The request-handling closure `fn` built by `TraceWithOptions`
(tracing.go:67-116), for an already-resolved `config`:
extract inbound context with `config.propagator`; build the span-start
attribute options (this is where `extractRoute(r.RequestURI)` is evaluated
and where an empty `RequestURI` panics, before any span is started); append
the configured static attributes when non-empty; derive the span name
(`extractRoute` again, with the root fallback, then the unconditional
`r.Method + " /"` prefix); start the span (`defer span.End()`); inject with
the process-wide global propagator; wrap the writer; run `next`; if the span
is recording, set the status attribute; finally the deferred `span.End()`
fires — also when `next` panics. -/
def serveHTTP (config : resolvedTraceConfig) (env : Env) (next : NextHandler) (r : Request) :
    HandlerResult :=
  let ev0 : List Event := [Event.extractUsing config.propagator.pid]
  match extractRoute r.requestURI with
  | none =>
    { outcome := Except.error sliceBoundsPanic, events := ev0, finalHeader := r.header }
  | some route =>
    let opts := standardSpanAttributes r route
    let opts := if 0 < config.attributes.length then opts ++ config.attributes else opts
    let spanName := route
    let spanName := if spanName = "" then r.proto ++ " " ++ r.method ++ " /" else spanName
    let spanName := r.method ++ " /" ++ spanName
    let r2 := downstreamRequest config.propagator env r
    let ev1 := ev0 ++ [Event.spanStarted config.tracer spanName opts,
                       Event.injectUsing env.globalPropagator.pid]
    let wrapperRes := NewWrapResponseWriter r.protoMajor
    match next r2 wrapperRes with
    | Except.error panicValue =>
      { outcome := Except.error panicValue
        events := ev1 ++ [Event.spanEnded]
        finalHeader := r2.header }
    | Except.ok w2 =>
      let ev2 :=
        if env.spanRecording then
          ev1 ++ [Event.spanSetAttributes (HTTPAttributesFromHTTPStatusCode w2.Status)]
        else ev1
      { outcome := Except.ok ()
        events := ev2 ++ [Event.spanEnded]
        finalHeader := r2.header }

/-- `TraceWithOptions(opt...)` (tracing.go:43-118): apply the options, fill
in the defaults at wrap time, and return the decorator `next ↦ handler`. -/
def TraceWithOptions (env : Env) (opt : List TraceOption) :
    NextHandler → Request → HandlerResult :=
  let config := resolveConfig env.globalPropagator opt
  fun next r => serveHTTP config env next r

/-- `Trace(next)` (tracing.go:122-124): shorthand for
`TraceWithOptions()(next)`. -/
def Trace (env : Env) (next : NextHandler) : Request → HandlerResult :=
  TraceWithOptions env [] next

/-- The name of the span started during one invocation, if any. -/
def spanNameOf (res : HandlerResult) : Option String :=
  res.events.findSome? fun e =>
    match e with
    | Event.spanStarted _ name _ => some name
    | _ => none

/-- The start attributes of the span started during one invocation, if any. -/
def spanAttrsOf (res : HandlerResult) : Option (List KeyValue) :=
  res.events.findSome? fun e =>
    match e with
    | Event.spanStarted _ _ attrs => some attrs
    | _ => none

/-- Number of `span.End()` calls in an event trace. -/
def spanEndCount (evs : List Event) : Nat :=
  (evs.filter (fun e => e = Event.spanEnded)).length

/-- Number of spans started in an event trace. -/
def spanStartCount (evs : List Event) : Nat :=
  (evs.filter (fun e =>
    match e with
    | Event.spanStarted _ _ _ => true
    | _ => false)).length

/-- The propagator identities used for `Extract` calls, in order. -/
def extractPids (evs : List Event) : List Nat :=
  evs.filterMap fun e =>
    match e with
    | Event.extractUsing pid => some pid
    | _ => none

/-- The propagator identities used for `Inject` calls, in order. -/
def injectPids (evs : List Event) : List Nat :=
  evs.filterMap fun e =>
    match e with
    | Event.injectUsing pid => some pid
    | _ => none

/-- The `span.SetAttributes` calls made after the downstream handler, in
order. -/
def setAttributesCalls (evs : List Event) : List (List KeyValue) :=
  evs.filterMap fun e =>
    match e with
    | Event.spanSetAttributes attrs => some attrs
    | _ => none

/-! Concrete sample values for evaluating the embedding on closed inputs. -/

/-- A concrete propagator standing for the process-wide global propagator. -/
def sampleGlobal : Propagator :=
  { pid := 0, extractFn := fun c _ => c, injectFn := fun _ h => h }

/-- A concrete custom propagator, distinguishable from `sampleGlobal`. -/
def sampleCustom : Propagator :=
  { pid := 7, extractFn := fun c _ => c + 10
    injectFn := fun _ h => ("traceparent", "00-sample") :: h }

/-- A concrete tracing environment whose spans report `IsRecording() = true`. -/
def sampleEnv : Env :=
  { globalPropagator := sampleGlobal, startCtx := fun c => c + 1, spanRecording := true }

/-- A concrete tracing environment whose spans report `IsRecording() = false`. -/
def sampleEnvNotRecording : Env :=
  { globalPropagator := sampleGlobal, startCtx := fun c => c + 1, spanRecording := false }

/-- A downstream handler that sets status 404 and returns normally. -/
def sampleOkNext : NextHandler := fun _ _ => Except.ok { status := 404 }

/-- A downstream handler that panics. -/
def samplePanicNext : NextHandler := fun _ _ => Except.error "boom"

/-- A request to the root path `"/"`. -/
def rootRequest : Request :=
  { ctx := 0, header := [], host := "example.com", requestURI := "/"
    proto := "HTTP/1.1", method := "GET", protoMajor := 1 }

/-- A request to `"/foo/bar"`. -/
def fooBarRequest : Request :=
  { ctx := 0, header := [], host := "example.com", requestURI := "/foo/bar"
    proto := "HTTP/1.1", method := "GET", protoMajor := 1 }

/-- A request whose `RequestURI` carries a query string. -/
def queryRequest : Request :=
  { ctx := 0, header := [], host := "example.com", requestURI := "/foo?x=1"
    proto := "HTTP/1.1", method := "GET", protoMajor := 1 }

/-- A request whose `RequestURI` is the empty string. -/
def emptyUriRequest : Request :=
  { ctx := 0, header := [], host := "example.com", requestURI := ""
    proto := "HTTP/1.1", method := "GET", protoMajor := 1 }

end Otelmiddleware

namespace Otelmiddleware

/-! ## Helper lemmas -/

/-- Applying an option list ending in one extra option first applies the
prefix, then the extra option. -/
theorem applyOptions_concat (l : List TraceOption) (o : TraceOption) :
    applyOptions (l ++ [o]) = o (applyOptions l) := by
  simp [applyOptions, List.foldl_append]

/-- Applying an option list ending in two extra options applies them last,
in order. -/
theorem applyOptions_concat2 (l : List TraceOption) (o1 o2 : TraceOption) :
    applyOptions (l ++ [o1, o2]) = o2 (o1 (applyOptions l)) := by
  simp [applyOptions, List.foldl_append]

/-- The request handler reads only the tracer, propagator and attributes of
its configuration; the service name is never consulted. -/
theorem serveHTTP_congr (c1 c2 : resolvedTraceConfig) (ht : c1.tracer = c2.tracer)
    (hp : c1.propagator = c2.propagator) (ha : c1.attributes = c2.attributes)
    (env : Env) (next : NextHandler) (r : Request) :
    serveHTTP c1 env next r = serveHTTP c2 env next r := by
  obtain ⟨s1, t1, p1, a1⟩ := c1
  obtain ⟨s2, t2, p2, a2⟩ := c2
  subst ht; subst hp; subst ha
  rfl

/-! ## Claims -/

/-- C1, counterexample: for the root request (`RequestURI = "/"`, method
`GET`, protocol `HTTP/1.1`) the middleware derives the span name
`"GET /HTTP/1.1 GET /"`, not `"HTTP/1.1 GET /"` as the claim states: the
`r.Method + " /"` prefix at tracing.go:93 is applied unconditionally, also
to the root fallback name built at tracing.go:89. -/
theorem rootSpanName_counterexample :
    spanNameOf (TraceWithOptions sampleEnv [] sampleOkNext rootRequest)
        = some "GET /HTTP/1.1 GET /"
  ∧ spanNameOf (TraceWithOptions sampleEnv [] sampleOkNext rootRequest)
        ≠ some "HTTP/1.1 GET /" := by
  constructor <;> decide

/-- C1, amended: for every request whose path is `"/"` the derived span name
equals `"<method> /<protocol> <method> /"` — the fallback name
`"<protocol> <method> /"` is computed for the empty stripped path but then
still receives the unconditional `"<method> /"` prefix; for every request
whose path is `"/foo/bar"` the derived span name equals
`"<method> /foo/bar"`. -/
theorem spanName_shape (env : Env) (opt : List TraceOption) (next : NextHandler)
    (r : Request) (h : r.requestURI = "/" ∨ r.requestURI = "/foo/bar") :
    spanNameOf (TraceWithOptions env opt next r) =
      some (if r.requestURI = "/"
            then r.method ++ " /" ++ (r.proto ++ " " ++ r.method ++ " /")
            else r.method ++ " /foo/bar") := by
  have hr1 : extractRoute "/" = some "" := by decide
  have hr2 : extractRoute "/foo/bar" = some "foo/bar" := by decide
  cases h with
  | inl h =>
    simp only [TraceWithOptions, serveHTTP, h, hr1]
    cases hnext : next (downstreamRequest (resolveConfig env.globalPropagator opt).propagator env r)
        (NewWrapResponseWriter r.protoMajor) with
    | error pv => simp [spanNameOf, String.append_assoc]
    | ok w2 =>
      by_cases hrec : env.spanRecording <;> simp [spanNameOf, hrec, String.append_assoc]
  | inr h =>
    simp only [TraceWithOptions, serveHTTP, h, hr2]
    have hfoo : (" /" : String) ++ "foo/bar" = " /foo/bar" := by decide
    cases hnext : next (downstreamRequest (resolveConfig env.globalPropagator opt).propagator env r)
        (NewWrapResponseWriter r.protoMajor) with
    | error pv => simp [spanNameOf, String.append_assoc, hfoo]
    | ok w2 =>
      by_cases hrec : env.spanRecording <;>
        simp [spanNameOf, hrec, String.append_assoc, hfoo]

/-- Witness for C1 at the concrete root and `"/foo/bar"` requests. -/
theorem spanName_shape_witness :
    spanNameOf (TraceWithOptions sampleEnv [] sampleOkNext rootRequest)
        = some "GET /HTTP/1.1 GET /"
  ∧ spanNameOf (TraceWithOptions sampleEnv [] sampleOkNext fooBarRequest)
        = some "GET /foo/bar" := by
  constructor
  · rw [spanName_shape sampleEnv [] sampleOkNext rootRequest (Or.inl rfl)]; decide
  · rw [spanName_shape sampleEnv [] sampleOkNext fooBarRequest (Or.inr rfl)]; decide

/-- C2: for every configuration, inbound trace-context extraction uses the
configured propagator — the one set by `WithPropagator` if any, otherwise
the process-wide global propagator (`Option.getD`) — while outbound
injection into the request headers always uses the process-wide global
propagator (`otel.GetTextMapPropagator()` at tracing.go:103), even when a
custom propagator was configured. -/
theorem propagator_extract_inject_asymmetry (env : Env) (opt : List TraceOption)
    (next : NextHandler) (r : Request) (route : String)
    (hroute : extractRoute r.requestURI = some route) :
    extractPids (TraceWithOptions env opt next r).events
        = [(((applyOptions opt).propagator).getD env.globalPropagator).pid]
  ∧ injectPids (TraceWithOptions env opt next r).events = [env.globalPropagator.pid] := by
  simp only [TraceWithOptions, serveHTTP, hroute]
  cases hnext : next (downstreamRequest (resolveConfig env.globalPropagator opt).propagator env r)
      (NewWrapResponseWriter r.protoMajor) with
  | error pv => simp [extractPids, injectPids, resolveConfig]
  | ok w2 =>
    by_cases hrec : env.spanRecording <;>
      simp [extractPids, injectPids, resolveConfig, hrec, List.filterMap_append]

/-- Witness for C2: with a custom propagator (identity 7) configured and a
global propagator of identity 0, extraction uses 7 and injection uses 0. -/
theorem propagator_extract_inject_asymmetry_witness :
    extractPids (TraceWithOptions sampleEnv [WithPropagator sampleCustom]
        sampleOkNext fooBarRequest).events = [7]
  ∧ injectPids (TraceWithOptions sampleEnv [WithPropagator sampleCustom]
        sampleOkNext fooBarRequest).events = [0] := by
  have h := propagator_extract_inject_asymmetry sampleEnv [WithPropagator sampleCustom]
    sampleOkNext fooBarRequest "foo/bar" (by decide)
  exact ⟨h.1.trans (by decide), h.2.trans (by decide)⟩

/-- C3: each `WithAttributes` call replaces the whole attribute list rather
than appending; applying it twice leaves only the last set on the span (the
span-start attributes are the standard ones followed by exactly the last
configured set, not the union), and more generally the last option to touch
a field wins for every configuration field. -/
theorem withAttributes_replaces (env : Env) (opt : List TraceOption)
    (a1 a2 : List KeyValue) (t : Tracer) (p : Propagator) (s : String)
    (next : NextHandler) (r : Request) (route : String)
    (hroute : extractRoute r.requestURI = some route) (ha : a2 ≠ []) :
    (applyOptions (opt ++ [WithAttributes a1, WithAttributes a2])).attributes = a2
  ∧ spanAttrsOf (TraceWithOptions env (opt ++ [WithAttributes a1, WithAttributes a2]) next r)
      = some (standardSpanAttributes r route ++ a2)
  ∧ (applyOptions (opt ++ [WithTracer t])).tracer = some t
  ∧ (applyOptions (opt ++ [WithPropagator p])).propagator = some p
  ∧ (applyOptions (opt ++ [WithServiceName s])).serviceName = s := by
  refine ⟨by simp [applyOptions_concat2, WithAttributes], ?_,
    by simp [applyOptions_concat, WithTracer],
    by simp [applyOptions_concat, WithPropagator],
    by simp [applyOptions_concat, WithServiceName]⟩
  have hlen : 0 < a2.length := List.length_pos.mpr ha
  simp only [TraceWithOptions, serveHTTP, hroute, resolveConfig, applyOptions_concat2,
    WithAttributes]
  cases hnext : next (downstreamRequest
      (((applyOptions opt).propagator).getD env.globalPropagator) env r)
      (NewWrapResponseWriter r.protoMajor) with
  | error pv => simp [spanAttrsOf, hlen]
  | ok w2 =>
    by_cases hrec : env.spanRecording <;> simp [spanAttrsOf, hlen, hrec]

/-- Witness for C3: configuring first `a = 1` and then `b = 2` leaves only
`b = 2` (after the standard attributes) on the started span. -/
theorem withAttributes_replaces_witness :
    (applyOptions [WithAttributes [{ key := "a", value := "1" }],
        WithAttributes [{ key := "b", value := "2" }]]).attributes
      = [{ key := "b", value := "2" }]
  ∧ spanAttrsOf (TraceWithOptions sampleEnv
        [WithAttributes [{ key := "a", value := "1" }],
         WithAttributes [{ key := "b", value := "2" }]] sampleOkNext fooBarRequest)
      = some (standardSpanAttributes fooBarRequest "foo/bar" ++ [{ key := "b", value := "2" }]) := by
  have h := withAttributes_replaces sampleEnv [] [{ key := "a", value := "1" }]
    [{ key := "b", value := "2" }] defaultTracer sampleCustom "svc"
    sampleOkNext fooBarRequest "foo/bar" (by decide) (by decide)
  exact ⟨h.1, h.2.1⟩

/-- C4: whenever the middleware starts a span for a request (the span is
started exactly when `extractRoute` succeeds), the span is ended exactly
once on every exit path — for every downstream handler, whether it returns
normally or panics — and `span.End()` is the last collaborator call before
the outcome (including a propagating panic) is returned. -/
theorem span_ended_exactly_once (env : Env) (opt : List TraceOption)
    (next : NextHandler) (r : Request) (route : String)
    (hroute : extractRoute r.requestURI = some route) :
    spanStartCount (TraceWithOptions env opt next r).events = 1
  ∧ spanEndCount (TraceWithOptions env opt next r).events = 1
  ∧ (TraceWithOptions env opt next r).events.getLast? = some Event.spanEnded := by
  simp only [TraceWithOptions, serveHTTP, hroute]
  cases hnext : next (downstreamRequest (resolveConfig env.globalPropagator opt).propagator env r)
      (NewWrapResponseWriter r.protoMajor) with
  | error pv => simp [spanEndCount, spanStartCount]
  | ok w2 =>
    by_cases hrec : env.spanRecording <;>
      simp [spanEndCount, spanStartCount, hrec, List.filter_append]

/-- Witness for C4 with a panicking downstream handler. -/
theorem span_ended_exactly_once_witness :
    spanStartCount (TraceWithOptions sampleEnv [] samplePanicNext fooBarRequest).events = 1
  ∧ spanEndCount (TraceWithOptions sampleEnv [] samplePanicNext fooBarRequest).events = 1
  ∧ (TraceWithOptions sampleEnv [] samplePanicNext fooBarRequest).events.getLast?
      = some Event.spanEnded :=
  span_ended_exactly_once sampleEnv [] samplePanicNext fooBarRequest "foo/bar" (by decide)

/-- C5: after wrap-time construction, if no tracer was supplied the tracer
is the default tracer identified by the library name
`"github.com/vincentfree/opentelemetry/otelmiddleware"` and version
`"0.1.0"`; if no propagator was supplied the propagator is the process-wide
global propagator; and if the service name is empty it is set to
`"TracedApplication"`. -/
theorem wrap_time_defaults (g : Propagator) (opt : List TraceOption) :
    ((applyOptions opt).tracer = none → (resolveConfig g opt).tracer =
        { instrumentationName := "github.com/vincentfree/opentelemetry/otelmiddleware",
          instrumentationVersion := "0.1.0" })
  ∧ ((applyOptions opt).propagator = none → (resolveConfig g opt).propagator = g)
  ∧ ((applyOptions opt).serviceName = "" → (resolveConfig g opt).serviceName
        = "TracedApplication") := by
  refine ⟨fun h => ?_, fun h => ?_, fun h => ?_⟩ <;>
    simp [resolveConfig, h, defaultTracer, version]

/-- Witness for C5 at the empty option list. -/
theorem wrap_time_defaults_witness :
    (resolveConfig sampleGlobal []).tracer =
        { instrumentationName := "github.com/vincentfree/opentelemetry/otelmiddleware",
          instrumentationVersion := "0.1.0" }
  ∧ (resolveConfig sampleGlobal []).propagator = sampleGlobal
  ∧ (resolveConfig sampleGlobal []).serviceName = "TracedApplication" :=
  ⟨(wrap_time_defaults sampleGlobal []).1 rfl,
   (wrap_time_defaults sampleGlobal []).2.1 rfl,
   (wrap_time_defaults sampleGlobal []).2.2 rfl⟩

/-- C6: when the downstream handler returns normally, the middleware issues
exactly one `span.SetAttributes` call carrying the status attribute for the
code captured by the wrapped response writer if the span is still recording,
and issues no `SetAttributes` call at all otherwise. -/
theorem status_attribute_iff_recording (env : Env) (opt : List TraceOption)
    (next : NextHandler) (r : Request) (route : String) (w2 : WrapResponseWriter)
    (hroute : extractRoute r.requestURI = some route)
    (hnext : next (downstreamRequest (((applyOptions opt).propagator).getD env.globalPropagator)
        env r) (NewWrapResponseWriter r.protoMajor) = Except.ok w2) :
    setAttributesCalls (TraceWithOptions env opt next r).events
      = if env.spanRecording then [HTTPAttributesFromHTTPStatusCode w2.Status] else [] := by
  simp only [TraceWithOptions, serveHTTP, hroute, resolveConfig]
  rw [hnext]
  by_cases hrec : env.spanRecording <;>
    simp [setAttributesCalls, hrec, List.filterMap_append]

/-- Witness for C6: a recording span and a handler that sets status 404
produce exactly one status-attribute call encoding 404; the same handler
under a non-recording span produces none. -/
theorem status_attribute_iff_recording_witness :
    setAttributesCalls (TraceWithOptions sampleEnv [] sampleOkNext fooBarRequest).events
      = [[{ key := "http.status_code", value := "404" }]]
  ∧ setAttributesCalls
      (TraceWithOptions sampleEnvNotRecording [] sampleOkNext fooBarRequest).events = [] := by
  have h1 := status_attribute_iff_recording sampleEnv [] sampleOkNext fooBarRequest
    "foo/bar" { status := 404 } (by decide) rfl
  have h2 := status_attribute_iff_recording sampleEnvNotRecording [] sampleOkNext fooBarRequest
    "foo/bar" { status := 404 } (by decide) rfl
  exact ⟨h1.trans (by decide), h2.trans (by decide)⟩

/-- C7: the service name set by `WithServiceName` is stored in the
configuration, but the middleware's observable behaviour — span name, span
attributes, events, headers, outcome — is identical whether or not
`WithServiceName` was applied: the service name is never attached to any
span. -/
theorem serviceName_never_attached (env : Env) (opt : List TraceOption) (s : String)
    (next : NextHandler) (r : Request) :
    (applyOptions (opt ++ [WithServiceName s])).serviceName = s
  ∧ TraceWithOptions env (opt ++ [WithServiceName s]) next r
      = TraceWithOptions env opt next r := by
  constructor
  · simp [applyOptions_concat, WithServiceName]
  · simp only [TraceWithOptions]
    have hc : resolveConfig env.globalPropagator (opt ++ [WithServiceName s]) =
        { resolveConfig env.globalPropagator opt with
            serviceName := if s = "" then "TracedApplication" else s } := by
      simp [resolveConfig, applyOptions_concat, WithServiceName]
    rw [hc]
    exact serveHTTP_congr _ _ rfl rfl rfl env next r

/-- C8: the zero-configuration entry point `Trace` behaves identically to
`TraceWithOptions` applied to no options, which in turn is the request
handler over the all-defaults configuration. -/
theorem trace_is_zero_config (env : Env) (next : NextHandler) (r : Request) :
    Trace env next r = TraceWithOptions env [] next r
  ∧ Trace env next r = serveHTTP
      { serviceName := "TracedApplication", tracer := defaultTracer,
        propagator := env.globalPropagator, attributes := [] } env next r :=
  ⟨rfl, rfl⟩

/-- C9: `extractRoute` is total only on non-empty strings: on a string of
length at least 1 it returns the suffix after the first character, on the
empty string the Go slice `uri[1:]` is out of bounds; a request with an
empty `RequestURI` therefore makes the handler panic with the slice-bounds
panic before any span is started (and hence none is ended). -/
theorem extractRoute_total_only_on_nonempty (uri : String) (env : Env)
    (opt : List TraceOption) (next : NextHandler) (r : Request)
    (h1 : 1 ≤ uri.length) (hempty : r.requestURI = "") :
    extractRoute uri = some (uri.drop 1)
  ∧ extractRoute "" = none
  ∧ (TraceWithOptions env opt next r).outcome = Except.error sliceBoundsPanic
  ∧ spanStartCount (TraceWithOptions env opt next r).events = 0
  ∧ spanEndCount (TraceWithOptions env opt next r).events = 0 := by
  refine ⟨by simp [extractRoute, h1], by simp [extractRoute], ?_, ?_, ?_⟩ <;>
    simp [TraceWithOptions, serveHTTP, hempty, extractRoute, spanStartCount, spanEndCount]

/-- Witness for C9: `extractRoute "/a" = some "a"`, and the handler panics
on an empty `RequestURI` with no span started. -/
theorem extractRoute_total_only_on_nonempty_witness :
    extractRoute "/a" = some "a"
  ∧ extractRoute "" = none
  ∧ (TraceWithOptions sampleEnv [] sampleOkNext emptyUriRequest).outcome
      = Except.error sliceBoundsPanic
  ∧ spanStartCount (TraceWithOptions sampleEnv [] sampleOkNext emptyUriRequest).events = 0
  ∧ spanEndCount (TraceWithOptions sampleEnv [] sampleOkNext emptyUriRequest).events = 0 := by
  have h := extractRoute_total_only_on_nonempty "/a" sampleEnv [] sampleOkNext
    emptyUriRequest (by decide) rfl
  exact ⟨h.1.trans (by decide), h.2.1, h.2.2.1, h.2.2.2.1, h.2.2.2.2⟩

/-- C10: the span name and the HTTP route attribute are derived from the
full `RequestURI` (everything after its first character), not from the path
alone: whatever `extractRoute` yields — including a query string — appears
verbatim in the span name and as the route attribute of the started span. -/
theorem spanName_route_from_full_uri (env : Env) (opt : List TraceOption)
    (next : NextHandler) (r : Request) (rest : String)
    (hroute : extractRoute r.requestURI = some rest) (hne : rest ≠ "") :
    spanNameOf (TraceWithOptions env opt next r) = some (r.method ++ " /" ++ rest)
  ∧ { key := "http.route", value := rest }
      ∈ (spanAttrsOf (TraceWithOptions env opt next r)).getD [] := by
  simp only [TraceWithOptions, serveHTTP, hroute]
  cases hnext : next (downstreamRequest (resolveConfig env.globalPropagator opt).propagator env r)
      (NewWrapResponseWriter r.protoMajor) with
  | error pv =>
    by_cases hlen : 0 < (resolveConfig env.globalPropagator opt).attributes.length <;>
      simp [spanNameOf, spanAttrsOf, hne, hlen, standardSpanAttributes,
        HTTPServerAttributesFromHTTPRequest, NetAttributesFromHTTPRequest,
        EndUserAttributesFromHTTPRequest, HTTPClientAttributesFromHTTPRequest]
  | ok w2 =>
    by_cases hlen : 0 < (resolveConfig env.globalPropagator opt).attributes.length <;>
      by_cases hrec : env.spanRecording <;>
      simp [spanNameOf, spanAttrsOf, hne, hlen, hrec, standardSpanAttributes,
        HTTPServerAttributesFromHTTPRequest, NetAttributesFromHTTPRequest,
        EndUserAttributesFromHTTPRequest, HTTPClientAttributesFromHTTPRequest]

/-- Witness for C10 at `RequestURI = "/foo?x=1"`: the query string appears
verbatim in the span name and in the route attribute. -/
theorem spanName_route_from_full_uri_witness :
    spanNameOf (TraceWithOptions sampleEnv [] sampleOkNext queryRequest)
        = some "GET /foo?x=1"
  ∧ { key := "http.route", value := "foo?x=1" }
      ∈ (spanAttrsOf (TraceWithOptions sampleEnv [] sampleOkNext queryRequest)).getD [] := by
  have h := spanName_route_from_full_uri sampleEnv [] sampleOkNext queryRequest
    "foo?x=1" (by decide) (by decide)
  exact ⟨h.1.trans (by decide), h.2⟩

end Otelmiddleware
